import Mathlib

attribute [local semireducible] Rat.mul Rat.inv Rat.add Rat.sub

/-!
Verification of the geebap temporal scoring engine: the season/date-range
calculator and the two scoring strategies (multi-year distance scoring and
day-of-year distance scoring) built on pluggable distance-to-score transfer
functions.  The repository ships only the two demonstration notebooks; the
engine itself is modelled here from the design document, and the numeric
output table recorded in the day-of-year notebook is embedded verbatim as
ground truth for the behaviour of the real implementation.
-/

/-- Modelled from the spec: a `DatedImage` handle (the `scores` module itself
is not in the repository snapshot; only the notebooks that call it are).  It
exposes a read-only acquisition timestamp (epoch milliseconds), named metadata
properties and named scalar bands. -/
structure DatedImage where
  timestamp : Int
  props : List (String × Int)
  bands : List (String × Rat)
deriving DecidableEq

/-- Modelled from the spec: read a named metadata property of an image;
`none` corresponds to the `MissingPropertyKind` error. -/
def getProp (name : String) (img : DatedImage) : Option Int :=
  (img.props.find? (fun p => p.1 == name)).map (fun p => p.2)

/-- Modelled from the spec: the band writer capability: attach a named scalar
band to an image, overwriting any previous band of that name. -/
def setBand (name : String) (v : Rat) (img : DatedImage) : DatedImage :=
  { img with bands := (name, v) :: img.bands.filter (fun p => p.1 != name) }

/-- Read a named scalar band of an image. -/
def getBand (name : String) (img : DatedImage) : Option Rat :=
  (img.bands.find? (fun p => p.1 == name)).map (fun p => p.2)

/-- Modelled from the spec: the `linear` distance-to-score transfer function,
`max(0, 1 - distance / max_distance)`. -/
def linearScore (distance maxDistance : Rat) : Rat :=
  max 0 (1 - distance / maxDistance)

/-- Modelled from the spec: the `gaussian(stretch)` transfer function,
`exp(-(distance / (max_distance / stretch))^2)`. -/
noncomputable def gaussScore (stretch distance maxDistance : Real) : Real :=
  Real.exp (-(distance * stretch / maxDistance) ^ 2)

/-- The largest absolute distance in milliseconds from the target date over
the images present.  This is the normalization scale actually used by the
day-of-year score, as recovered from the output table recorded in the
notebook (the farthest image scores exactly 0 there). -/
def doyMaxDistance (target : Int) (imgs : List DatedImage) : Int :=
  imgs.foldr (fun i acc => max |i.timestamp - target| acc) 0

/-- Day-of-year score of one timestamp: the transfer function applied to the
absolute distance in milliseconds from the target date (continuous sub-day
precision, as the recorded outputs show). -/
def doyScoreOf (f : Rat → Rat → Rat) (target m t : Int) : Rat :=
  f ((|t - target| : Int) : Rat) ((m : Int) : Rat)

/-- Modelled from the spec: `DayOfYearScore.apply` attaches the band
`doy_score` to every image; the normalization scale is the distance to the
farthest image present, per the recorded outputs. -/
def doyApply (f : Rat → Rat → Rat) (target : Int) (imgs : List DatedImage) :
    List DatedImage :=
  imgs.map (fun i =>
    setBand "doy_score" (doyScoreOf f target (doyMaxDistance target imgs) i.timestamp) i)

/-- UTC calendar-day index of an epoch-millisecond timestamp. -/
def calDay (t : Int) : Int := t.fdiv 86400000

/-- Two timestamps fall on the same UTC calendar day. -/
def sameCalendarDay (t1 t2 : Int) : Prop := calDay t1 = calDay t2

/-- Modelled from the spec: the day-of-year score as the spec describes it,
with calendar-day granularity and `max_distance` half the season length in
days.  Kept separate from `doyScoreOf` so the two accounts can be compared
against the recorded outputs. -/
def doySpecScore (f : Rat → Rat → Rat) (halfSeason target t : Int) : Rat :=
  f ((|calDay t - calDay target| : Int) : Rat) ((halfSeason : Int) : Rat)

/-- Modelled from the spec: `DayOfYearScore.apply` as the spec words it. -/
def doySpecApply (f : Rat → Rat → Rat) (halfSeason target : Int)
    (imgs : List DatedImage) : List DatedImage :=
  imgs.map (fun i =>
    setBand "doy_score" (doySpecScore f halfSeason target i.timestamp) i)

/-- The target date of the day-of-year notebook, 2018-01-15T00:00:00Z in
epoch milliseconds. -/
def doyTargetMs : Int := 1515974400000

/-- The output table recorded in the day-of-year notebook: epoch-millisecond
timestamp of each image of the collection and the score of the `linear`
distribution recorded for it. -/
def recordedDoyLinear : List (Int × Rat) :=
  [ (1511101459940, 1110223 / 10 ^ 22),
    (1511706603660, 1241845 / 10 ^ 7),
    (1511706627620, 1241894 / 10 ^ 7),
    (1512483855460, 2836882 / 10 ^ 7),
    (1513089003020, 4078735 / 10 ^ 7),
    (1513089026980, 4078784 / 10 ^ 7),
    (1514471403760, 6915627 / 10 ^ 7),
    (1515248653700, 8510660 / 10 ^ 7),
    (1515853797380, 9752505 / 10 ^ 7),
    (1515853821340, 9752555 / 10 ^ 7),
    (1516631045620, 8652465 / 10 ^ 7),
    (1517236187980, 7410623 / 10 ^ 7),
    (1517236211940, 7410574 / 10 ^ 7),
    (1518013437490, 5815591 / 10 ^ 7),
    (1518618582110, 4573744 / 10 ^ 7),
    (1518618606070, 4573695 / 10 ^ 7) ]

/-- The images of the recorded day-of-year collection (timestamps only; the
score bands are what the engine computes). -/
def recordedImages : List DatedImage :=
  recordedDoyLinear.map (fun p => ⟨p.1, [], []⟩)

/-- The normalization scale of the recorded collection: the distance from the
target date to the farthest image, 4872940060 ms (about 56.4 days). -/
def recordedMaxDistance : Int := doyMaxDistance doyTargetMs recordedImages

/-- The linear day-of-year score of the recorded collection. -/
def observedDoyScore (t : Int) : Rat :=
  doyScoreOf linearScore doyTargetMs recordedMaxDistance t

/-- Modelled from the spec: the distance in whole years from the target year
to the furthest year actually present in the input. -/
def maxYearDistance (target : Int) (years : List Int) : Int :=
  years.foldr (fun y acc => max |y - target| acc) 0

/-- Modelled from the spec: tag every image with the year read from its year
property; `none` is the `MissingPropertyKind` failure. -/
def annotateYears (prop : String) : List DatedImage → Option (List (DatedImage × Int))
  | [] => some []
  | i :: rest =>
    match getProp prop i, annotateYears prop rest with
    | some y, some tagged => some ((i, y) :: tagged)
    | _, _ => none

/-- Modelled from the spec: the year score of one image: the transfer
function applied to the distance from the target year, except that every
image scores 1 when the maximal year distance is 0 (avoiding the division by
zero). -/
def multiYearScoreOf (f : Rat → Rat → Rat) (target m y : Int) : Rat :=
  if m = 0 then 1 else f ((|y - target| : Int) : Rat) ((m : Int) : Rat)

/-- Modelled from the spec: `MultiYearScore.apply` attaches the band
`year_score` to every image, scoring the year read from the year property
against the target year. -/
def multiYearApply (f : Rat → Rat → Rat) (target : Int) (prop : String)
    (imgs : List DatedImage) : Option (List DatedImage) :=
  (annotateYears prop imgs).map (fun tagged =>
    tagged.map (fun p =>
      setBand "year_score"
        (multiYearScoreOf f target
          (maxYearDistance target (tagged.map (fun q => q.2))) p.2) p.1))

/-- An image carrying a year tag under the property name the multi-year
notebook uses. -/
def mkYearImage (t y : Int) : DatedImage := ⟨t, [("YEAR_BAP", y)], []⟩

/-- Gregorian leap-year test. -/
def isLeap (y : Nat) : Bool := y % 4 == 0 && (y % 100 != 0 || y % 400 == 0)

/-- Length of month `m` of year `y`. -/
def monthLen (y : Nat) : Nat → Nat
  | 2 => if isLeap y then 29 else 28
  | 4 => 30
  | 6 => 30
  | 9 => 30
  | 11 => 30
  | _ => 31

/-- Days in the first `k` months of year `y`. -/
def cumDays (y : Nat) : Nat → Nat
  | 0 => 0
  | k + 1 => cumDays y k + monthLen y (k + 1)

/-- Number of leap years in `1..n`. -/
def leapCount (n : Nat) : Nat := n / 4 + n / 400 - n / 100

/-- Modelled from the spec: the day index (days since 0001-01-01) of the
calendar date `(y, m, d)`; this is what a concrete start/end timestamp of a
resolved season window is. -/
def dayNumber (y m d : Nat) : Nat :=
  365 * (y - 1) + leapCount (y - 1) + cumDays y (m - 1) + (d - 1)

/-- The day index `t` falls inside calendar year `y`. -/
def inYear (t y : Nat) : Prop := dayNumber y 1 1 ≤ t ∧ t < dayNumber (y + 1) 1 1

/-- Modelled from the spec: a recurring annual date window given by month/day
start and end, with no year (the `season` module is not in the repository
snapshot; only the notebook that calls it is). -/
structure Season where
  startMonth : Nat
  startDay : Nat
  endMonth : Nat
  endDay : Nat
deriving DecidableEq

/-- Modelled from the spec: the season wraps the year boundary when its start
month/day is later in the calendar than its end month/day (lexicographic
comparison). -/
def Season.wraps (s : Season) : Prop :=
  s.endMonth < s.startMonth ∨ (s.endMonth = s.startMonth ∧ s.endDay < s.startDay)

instance (s : Season) : Decidable s.wraps := by
  unfold Season.wraps
  infer_instance

/-- Modelled from the spec: resolve the recurring window to a concrete
start/end pair of day indices for an anchor year: the start falls in
`anchor - 1` when the season wraps, in `anchor` otherwise; the end always
falls in `anchor`. -/
def Season.resolve (s : Season) (anchor : Nat) : Nat × Nat :=
  if s.endMonth < s.startMonth ∨ (s.endMonth = s.startMonth ∧ s.endDay < s.startDay) then
    (dayNumber (anchor - 1) s.startMonth s.startDay, dayNumber anchor s.endMonth s.endDay)
  else
    (dayNumber anchor s.startMonth s.startDay, dayNumber anchor s.endMonth s.endDay)

/-- Modelled from the spec: the immutable configuration of a score strategy,
bound at construction: season, target anchor, transfer-function choice and
band name. -/
structure ScoreStrategy where
  season : Season
  mainYear : Int
  distribution : Rat → Rat → Rat
  bandName : String

/-- Modelled from the spec: one `apply` call on a strategy; the call may
override the anchor or the transfer function, and the pair returned holds the
scored images together with the strategy as it stands after the call. -/
def strategyCall (s : ScoreStrategy) (targetOverride : Option Int)
    (fOverride : Option (Rat → Rat → Rat)) (prop : String) (imgs : List DatedImage) :
    Option (List DatedImage) × ScoreStrategy :=
  (multiYearApply (fOverride.getD s.distribution) (targetOverride.getD s.mainYear) prop imgs, s)

instance (t1 t2 : Int) : Decidable (sameCalendarDay t1 t2) := by
  unfold sameCalendarDay
  infer_instance

instance (t y : Nat) : Decidable (inYear t y) := by
  unfold inYear
  infer_instance

/-- The linear score is strictly larger at a strictly smaller distance, as
long as the larger distance stays within the normalization scale. -/
theorem linearScore_strict_anti (a b m : Rat) (ha : 0 ≤ a) (hab : a < b) (hbm : b ≤ m) :
    linearScore b m < linearScore a m := by
  have hm : 0 < m := lt_of_lt_of_le (lt_of_le_of_lt ha hab) hbm
  have hb1 : b / m ≤ 1 := (div_le_one hm).mpr hbm
  have hdiv : a / m < b / m := (div_lt_div_iff_of_pos_right hm).mpr hab
  unfold linearScore
  calc max 0 (1 - b / m) = 1 - b / m := max_eq_right (by linarith)
    _ < 1 - a / m := by linarith
    _ ≤ max 0 (1 - a / m) := le_max_right 0 _

/-- C5: For the linear transfer function with any positive normalization
scale `m`, the score is exactly 0 for every distance at or beyond `m`: the
value `1 - distance / m` is clamped at 0. -/
theorem linear_score_zero_beyond_scale (d m : Rat) (hm : 0 < m) (hd : m ≤ d) :
    linearScore d m = 0 := by
  have h1 : 1 ≤ d / m := (one_le_div hm).mpr hd
  have h2 : 1 - d / m ≤ 0 := by linarith
  unfold linearScore
  exact max_eq_left h2

theorem linear_score_zero_beyond_scale_witness :
    (0 : Rat) < 23 ∧ (23 : Rat) ≤ 57 ∧ linearScore 57 23 = 0 :=
  ⟨by decide, by decide, linear_score_zero_beyond_scale 57 23 (by decide) (by decide)⟩

/-- C4: Every transfer function (linear, and gaussian with any positive
stretch) is monotonically non-increasing in distance over any positive
normalization scale, and never yields a negative score. -/
theorem transfer_monotone_nonneg :
    (∀ d m : Rat, 0 ≤ linearScore d m) ∧
    (∀ stretch d m : Real, 0 ≤ gaussScore stretch d m) ∧
    (∀ m d1 d2 : Rat, 0 < m → 0 ≤ d1 → d1 < d2 →
      linearScore d2 m ≤ linearScore d1 m) ∧
    (∀ stretch m d1 d2 : Real, 0 < stretch → 0 < m → 0 ≤ d1 → d1 < d2 →
      gaussScore stretch d2 m ≤ gaussScore stretch d1 m) := by
  refine ⟨fun d m => le_max_left 0 _, fun s d m => (Real.exp_pos _).le, ?_, ?_⟩
  · intro m d1 d2 hm hd1 hlt
    have hdiv : d1 / m ≤ d2 / m := (div_le_div_iff_of_pos_right hm).mpr hlt.le
    unfold linearScore
    exact max_le_max le_rfl (by linarith)
  · intro s m d1 d2 hs hm hd1 hlt
    unfold gaussScore
    apply Real.exp_le_exp.mpr
    apply neg_le_neg
    have h1 : 0 ≤ d1 * s / m := div_nonneg (mul_nonneg hd1 hs.le) hm.le
    have h2 : d1 * s / m ≤ d2 * s / m :=
      (div_le_div_iff_of_pos_right hm).mpr (mul_le_mul_of_nonneg_right hlt.le hs.le)
    exact pow_le_pow_left₀ h1 h2 2

theorem transfer_monotone_nonneg_witness :
    linearScore 2 1 ≤ linearScore 1 1 ∧ 0 ≤ linearScore 2 1 ∧
    gaussScore 1 1 1 ≤ gaussScore 1 0 1 :=
  ⟨transfer_monotone_nonneg.2.2.1 1 1 2 (by decide) (by decide) (by decide),
   transfer_monotone_nonneg.1 2 1,
   transfer_monotone_nonneg.2.2.2 1 1 0 1 zero_lt_one zero_lt_one le_rfl zero_lt_one⟩

/-- C7: Applying any scoring strategy to an empty image sequence returns an
empty sequence and signals no error (for the multi-year strategy, the result
is `some []`, not the `none` of a failure). -/
theorem apply_empty_is_empty (f : Rat → Rat → Rat) (target halfSeason : Int) (prop : String) :
    doyApply f target [] = [] ∧ doySpecApply f halfSeason target [] = [] ∧
    multiYearApply f target prop [] = some [] :=
  ⟨rfl, rfl, rfl⟩

/-- C1 counterexample: the output table recorded in the notebook scores the
2018-02-14 image at 0.4573744, while the claimed value, `1 - 30/46` (which is
exactly what the spec-worded half-season calendar-day model yields for this
timestamp), is about 0.348; the two differ by more than 0.1. -/
theorem doy_feb14_recorded_score_counterexample :
    recordedDoyLinear.lookup 1518618582110 = some (4573744 / 10 ^ 7) ∧
    doySpecScore linearScore 46 doyTargetMs 1518618582110 = 1 - 30 / 46 ∧
    1 / 10 < |(1 - 30 / 46 : Rat) - 4573744 / 10 ^ 7| := by
  exact ⟨by decide, by decide, by decide⟩

/-- C1 (amended): in the recorded run, the normalization scale of
`DayOfYearScore.apply` is the distance from the target 2018-01-15 to the
farthest image of the collection (the 2017-11-19 image, 4872940060 ms, about
56.4 days), not half the 92-day season; distance is continuous in absolute
time.  A timestamp exactly at the target scores 1.0, the 2017-11-19 image
scores 0.0, and every recorded linear score (in particular 0.4573744 for the
2018-02-14 image, about `1 - 30.6/56.4`) is reproduced to within 10⁻⁶, with
`apply` attaching exactly these scores as the `doy_score` band. -/
theorem doy_apply_matches_recorded_table :
    recordedMaxDistance = 4872940060 ∧
    observedDoyScore doyTargetMs = 1 ∧
    observedDoyScore 1511101459940 = 0 ∧
    (∀ p ∈ recordedDoyLinear, |observedDoyScore p.1 - p.2| < 1 / 10 ^ 6) ∧
    doyApply linearScore doyTargetMs recordedImages
      = recordedImages.map (fun i => setBand "doy_score" (observedDoyScore i.timestamp) i) := by
  exact ⟨by decide, by decide, by decide, by decide, by decide⟩

/-- C10: the day-of-year score measures distance with continuous sub-day
precision: of two images acquired on the same calendar day, the one whose
timestamp is closer in absolute time to the target date scores strictly
higher (linear transfer, within the normalization scale), whereas the
calendar-day-truncated reading of the spec could not separate them at all. -/
theorem doy_subday_precision (target m t1 t2 : Int)
    (hday : sameCalendarDay t1 t2)
    (hcloser : |t1 - target| < |t2 - target|)
    (hin : |t2 - target| ≤ m) :
    doyScoreOf linearScore target m t2 < doyScoreOf linearScore target m t1 ∧
    ∀ f halfSeason, doySpecScore f halfSeason target t1 = doySpecScore f halfSeason target t2 := by
  constructor
  · unfold doyScoreOf
    apply linearScore_strict_anti
    · exact_mod_cast abs_nonneg (t1 - target)
    · exact_mod_cast hcloser
    · exact_mod_cast hin
  · intro f halfSeason
    unfold doySpecScore
    rw [show calDay t1 = calDay t2 from hday]

theorem doy_subday_precision_witness :
    doyScoreOf linearScore doyTargetMs 4872940060 1515853797380
      < doyScoreOf linearScore doyTargetMs 4872940060 1515853821340 :=
  (doy_subday_precision doyTargetMs 4872940060 1515853821340 1515853797380
    (by decide) (by decide) (by decide)).1

theorem mem_le_maxYearDistance {t y : Int} {ys : List Int} (h : y ∈ ys) :
    |y - t| ≤ maxYearDistance t ys := by
  induction ys with
  | nil => cases h
  | cons a l ih =>
    rcases List.mem_cons.mp h with rfl | h'
    · exact le_max_left _ _
    · exact le_trans (ih h') (le_max_right _ _)

theorem maxYearDistance_le {t B : Int} {ys : List Int} (hB : 0 ≤ B)
    (h : ∀ y ∈ ys, |y - t| ≤ B) : maxYearDistance t ys ≤ B := by
  induction ys with
  | nil => exact hB
  | cons a l ih =>
    exact max_le (h a (List.mem_cons_self a l))
      (ih (fun y hy => h y (List.mem_cons_of_mem a hy)))

/-- C2: the normalization scale of the multi-year score is the distance from
the target year to the furthest year actually present, which for a set
spanning `{ymin..ymax}` is `max (target - ymin) (ymax - target)`; and on the
notebook fixture (years 2016-2019, target 2018, linear transfer) the images
score 0, 1/2, 1 and 1/2 respectively. -/
theorem multi_year_max_distance_and_fixture (t ymin ymax : Int) (ys : List Int)
    (hmin : ymin ∈ ys) (hmax : ymax ∈ ys) (hb : ∀ y ∈ ys, ymin ≤ y ∧ y ≤ ymax) :
    maxYearDistance t ys = max (t - ymin) (ymax - t) ∧
    (multiYearApply linearScore 2018 "YEAR_BAP"
        [mkYearImage 0 2016, mkYearImage 1 2017, mkYearImage 2 2018, mkYearImage 3 2019]).map
        (fun l => l.map (getBand "year_score"))
      = some [some 0, some (1 / 2), some 1, some (1 / 2)] := by
  constructor
  · have hminmax : ymin ≤ ymax := (hb ymax hmax).1
    apply le_antisymm
    · apply maxYearDistance_le
      · rcases max_cases (t - ymin) (ymax - t) with ⟨h1, h2⟩ | ⟨h1, h2⟩ <;> omega
      · intro y hy
        have := hb y hy
        rcases abs_cases (y - t) with ⟨h1, h2⟩ | ⟨h1, h2⟩ <;>
          rcases max_cases (t - ymin) (ymax - t) with ⟨h3, h4⟩ | ⟨h3, h4⟩ <;> omega
    · have l1 : t - ymin ≤ |ymin - t| := by
        rcases abs_cases (ymin - t) with ⟨h1, h2⟩ | ⟨h1, h2⟩ <;> omega
      have l2 : ymax - t ≤ |ymax - t| := by
        rcases abs_cases (ymax - t) with ⟨h1, h2⟩ | ⟨h1, h2⟩ <;> omega
      exact max_le (le_trans l1 (mem_le_maxYearDistance hmin))
        (le_trans l2 (mem_le_maxYearDistance hmax))
  · decide

theorem multi_year_max_distance_and_fixture_witness :
    maxYearDistance 2018 [2016, 2017, 2018, 2019] = max (2018 - 2016) (2019 - 2018) :=
  (multi_year_max_distance_and_fixture 2018 2016 2019 [2016, 2017, 2018, 2019]
    (by decide) (by decide) (by decide)).1

theorem annotateYears_all_target {prop : String} {target : Int} :
    ∀ {imgs : List DatedImage}, (∀ i ∈ imgs, getProp prop i = some target) →
      annotateYears prop imgs = some (imgs.map (fun i => (i, target)))
  | [], _ => rfl
  | i :: rest, h => by
    have hrest := annotateYears_all_target (fun j hj => h j (List.mem_cons_of_mem i hj))
    simp [annotateYears, h i (List.mem_cons_self i rest), hrest]

theorem maxYearDistance_all_eq_target {target : Int} :
    ∀ {ys : List Int}, (∀ y ∈ ys, y = target) → maxYearDistance target ys = 0
  | [], _ => rfl
  | y :: rest, h => by
    have hrest := maxYearDistance_all_eq_target (fun z hz => h z (List.mem_cons_of_mem y hz))
    have hy : y = target := h y (List.mem_cons_self y rest)
    simp [maxYearDistance] at hrest ⊢
    simp [hy, hrest]

/-- C6 counterexample: an input whose images all share the year 2016 with
target year 2018 has `max_year_distance = 2`, not 0, and every image receives
the linear score 0, not 1: sharing a year does not by itself make the
distance zero. -/
theorem multi_year_shared_year_counterexample :
    maxYearDistance 2018 [2016, 2016] = 2 ∧
    (multiYearApply linearScore 2018 "YEAR_BAP"
        [mkYearImage 0 2016, mkYearImage 1 2016]).map
        (fun l => l.map (getBand "year_score"))
      = some [some 0, some 0] ∧
    (0 : Rat) ≠ 1 := by
  exact ⟨by decide, by decide, by decide⟩

/-- C6 (amended): if the input is empty, or every image's year equals the
target year (so `max_year_distance = 0`), `MultiYearScore.apply` succeeds
and scores every image 1, the division by zero being avoided by the
`max_year_distance = 0` guard. -/
theorem multi_year_degenerate_scores_one (f : Rat → Rat → Rat) (target : Int)
    (prop : String) (imgs : List DatedImage)
    (h : ∀ i ∈ imgs, getProp prop i = some target) :
    multiYearApply f target prop [] = some [] ∧
    maxYearDistance target (imgs.map (fun _ => target)) = 0 ∧
    multiYearApply f target prop imgs = some (imgs.map (setBand "year_score" 1)) := by
  refine ⟨rfl, ?_, ?_⟩
  · exact maxYearDistance_all_eq_target (by simp)
  · have ha := annotateYears_all_target h
    have hmax : maxYearDistance target
        (List.map ((fun q => q.2) ∘ fun i => (i, target)) imgs) = 0 := by
      apply maxYearDistance_all_eq_target
      simp
    simp [multiYearApply, ha, multiYearScoreOf, List.map_map, hmax]

theorem multi_year_degenerate_scores_one_witness :
    multiYearApply linearScore 2018 "YEAR_BAP" [mkYearImage 7 2018]
      = some [setBand "year_score" 1 (mkYearImage 7 2018)] :=
  (multi_year_degenerate_scores_one linearScore 2018 "YEAR_BAP" [mkYearImage 7 2018]
    (by decide)).2.2

theorem getProp_setBand (p n : String) (v : Rat) (i : DatedImage) :
    getProp p (setBand n v i) = getProp p i := rfl

theorem setBand_setBand (n : String) (v w : Rat) (i : DatedImage) :
    setBand n v (setBand n w i) = setBand n v i := by
  simp [setBand, List.filter_filter]

theorem doyMaxDistance_map_setBand (t : Int) (n : String) (g : DatedImage → Rat)
    (imgs : List DatedImage) :
    doyMaxDistance t (imgs.map (fun i => setBand n (g i) i)) = doyMaxDistance t imgs := by
  unfold doyMaxDistance
  rw [List.foldr_map]
  rfl

theorem annotateYears_spec {prop : String} :
    ∀ {imgs : List DatedImage} {tagged : List (DatedImage × Int)},
      annotateYears prop imgs = some tagged → ∀ p ∈ tagged, getProp prop p.1 = some p.2
  | [], tagged, h => by
    simp only [annotateYears, Option.some.injEq] at h
    subst h
    intro p hp
    cases hp
  | i :: rest, tagged, h => by
    unfold annotateYears at h
    cases hg : getProp prop i with
    | none => rw [hg] at h; simp at h
    | some y =>
      rw [hg] at h
      cases hr : annotateYears prop rest with
      | none => rw [hr] at h; simp at h
      | some tl =>
        rw [hr] at h
        simp only [Option.some.injEq] at h
        subst h
        intro p hp
        rcases List.mem_cons.mp hp with rfl | h'
        · exact hg
        · exact annotateYears_spec hr p h'

theorem annotateYears_map_setBand {prop : String} (n : String) (g : DatedImage × Int → Rat) :
    ∀ {tagged : List (DatedImage × Int)},
      (∀ p ∈ tagged, getProp prop p.1 = some p.2) →
      annotateYears prop (tagged.map (fun p => setBand n (g p) p.1))
        = some (tagged.map (fun p => (setBand n (g p) p.1, p.2)))
  | [], _ => rfl
  | p :: rest, h => by
    have hrest := annotateYears_map_setBand n g (fun q hq => h q (List.mem_cons_of_mem p hq))
    have hp : getProp prop p.1 = some p.2 := h p (List.mem_cons_self p rest)
    simp [annotateYears, getProp_setBand, hp, hrest]

/-- C8: applying a scoring strategy a second time with identical parameters
reproduces the first result exactly: the score band is overwritten with the
same value; nothing accumulates.  This holds for any transfer function,
target and parameters, for both day-of-year models and for the multi-year
strategy. -/
theorem apply_idempotent (f : Rat → Rat → Rat) (target halfSeason : Int) (prop : String)
    (imgs : List DatedImage) :
    doyApply f target (doyApply f target imgs) = doyApply f target imgs ∧
    doySpecApply f halfSeason target (doySpecApply f halfSeason target imgs)
      = doySpecApply f halfSeason target imgs ∧
    (multiYearApply f target prop imgs).bind (multiYearApply f target prop)
      = multiYearApply f target prop imgs := by
  refine ⟨?_, ?_, ?_⟩
  · unfold doyApply
    rw [doyMaxDistance_map_setBand, List.map_map]
    exact List.map_congr_left (fun i _ => setBand_setBand _ _ _ _)
  · unfold doySpecApply
    rw [List.map_map]
    exact List.map_congr_left (fun i _ => setBand_setBand _ _ _ _)
  · cases ha : annotateYears prop imgs with
    | none => simp [multiYearApply, ha]
    | some tagged =>
      have hp := annotateYears_spec ha
      simp only [multiYearApply, ha, Option.map_some', Option.some_bind]
      rw [annotateYears_map_setBand _ _ hp]
      simp only [Option.map_some', Option.some.injEq, List.map_map]
      exact List.map_congr_left (fun p _ => setBand_setBand _ _ _ _)

theorem leapCount_succ (n : Nat) :
    leapCount (n + 1) = leapCount n + (if isLeap (n + 1) then 1 else 0) := by
  have hiff : isLeap (n + 1) = true ↔
      ((n + 1) % 4 = 0 ∧ ((n + 1) % 100 ≠ 0 ∨ (n + 1) % 400 = 0)) := by
    simp [isLeap]
  unfold leapCount
  by_cases h : isLeap (n + 1) = true
  · rw [if_pos h]
    have hm := hiff.mp h
    omega
  · rw [if_neg h]
    rw [hiff] at h
    push_neg at h
    omega

theorem cumDays_mono (y m d : Nat) : cumDays y m ≤ cumDays y (m + d) := by
  induction d with
  | zero => exact le_refl _
  | succ d ih => exact le_trans ih (Nat.le_add_right _ _)

theorem cumDays_twelve (y : Nat) : cumDays y 12 = 365 + (if isLeap y then 1 else 0) := by
  by_cases h : isLeap y = true <;>
    simp [cumDays, monthLen, h]

/-- A valid calendar date of year `y` has a day index inside year `y`. -/
theorem dayNumber_inYear (y m d : Nat) (hy : 1 ≤ y) (hm : 1 ≤ m) (hm12 : m ≤ 12)
    (hd : 1 ≤ d) (hdm : d ≤ monthLen y m) : inYear (dayNumber y m d) y := by
  obtain ⟨k, rfl⟩ : ∃ k, m = k + 1 := ⟨m - 1, by omega⟩
  have hcum1 : cumDays y k + d ≤ cumDays y (k + 1) := by
    simp only [cumDays]
    omega
  have hcum2 : cumDays y (k + 1) ≤ cumDays y 12 := by
    obtain ⟨e, he⟩ := Nat.le.dest hm12
    have h2 := cumDays_mono y (k + 1) e
    rw [he] at h2
    exact h2
  have hc12 : cumDays y 12 = 365 + (if isLeap y then 1 else 0) := cumDays_twelve y
  have hlc : leapCount y = leapCount (y - 1) + (if isLeap y then 1 else 0) := by
    obtain ⟨n, rfl⟩ : ∃ n, y = n + 1 := ⟨y - 1, by omega⟩
    simpa using leapCount_succ n
  constructor
  · unfold dayNumber
    simp only [Nat.sub_self, Nat.add_sub_cancel, cumDays]
    omega
  · unfold dayNumber
    simp only [Nat.sub_self, Nat.add_sub_cancel, cumDays]
    rcases Bool.eq_false_or_eq_true (isLeap y) with hL | hL <;>
      rw [hL] at hc12 hlc <;> simp at hc12 hlc <;> omega

/-- C3: for every wrapping season (start month/day later in the calendar
than end month/day) and every anchor year admitting valid dates, the resolved
window starts at a timestamp falling in calendar year `anchor - 1` and ends
at a timestamp falling in calendar year `anchor`. -/
theorem season_wrapping_resolve (s : Season) (anchor : Nat) (hw : s.wraps) (ha : 2 ≤ anchor)
    (hm1 : 1 ≤ s.startMonth) (hm1' : s.startMonth ≤ 12)
    (hd1 : 1 ≤ s.startDay) (hd1' : s.startDay ≤ monthLen (anchor - 1) s.startMonth)
    (hm2 : 1 ≤ s.endMonth) (hm2' : s.endMonth ≤ 12)
    (hd2 : 1 ≤ s.endDay) (hd2' : s.endDay ≤ monthLen anchor s.endMonth) :
    inYear (s.resolve anchor).1 (anchor - 1) ∧ inYear (s.resolve anchor).2 anchor := by
  unfold Season.resolve
  have hw' : s.endMonth < s.startMonth ∨ (s.endMonth = s.startMonth ∧ s.endDay < s.startDay) := hw
  rw [if_pos hw']
  exact ⟨dayNumber_inYear _ _ _ (by omega) hm1 hm1' hd1 hd1',
         dayNumber_inYear _ _ _ (by omega) hm2 hm2' hd2 hd2'⟩

theorem season_wrapping_resolve_witness :
    inYear ((Season.mk 11 15 2 15).resolve 2018).1 2017 ∧
    inYear ((Season.mk 11 15 2 15).resolve 2018).2 2018 :=
  season_wrapping_resolve ⟨11, 15, 2, 15⟩ 2018 (by decide) (by decide) (by decide)
    (by decide) (by decide) (by decide) (by decide) (by decide) (by decide) (by decide)

/-- C9: a strategy's configuration is fixed at construction and never mutated
by `apply`: a call returns the strategy unchanged, its result is a pure
function of the construction-time configuration and the call's own arguments
(with per-call overrides of anchor and transfer function), and a preceding
call with different overrides or input has no effect on a later call. -/
theorem strategy_config_immutable (s : ScoreStrategy) (o1 o2 : Option Int)
    (g1 g2 : Option (Rat → Rat → Rat)) (prop : String) (imgs imgs2 : List DatedImage) :
    (strategyCall s o1 g1 prop imgs).2 = s ∧
    (strategyCall s o1 g1 prop imgs).1
      = multiYearApply (g1.getD s.distribution) (o1.getD s.mainYear) prop imgs ∧
    (strategyCall (strategyCall s o2 g2 prop imgs2).2 o1 g1 prop imgs).1
      = (strategyCall s o1 g1 prop imgs).1 :=
  ⟨rfl, rfl, rfl⟩
